import Mathlib

/-!
Verification development for the FitFind outfit-to-products pipeline
(`search_recommendation.py`).  The Python functions are shallowly embedded
as executable Lean definitions:

* machine floats are modelled as exact rationals (`ℚ`); the claims settled
  here depend only on null-ness, sign and comparison of prices, never on
  float representation artifacts;
* Python `None` / missing dict keys are modelled with `Option`;
* external collaborators (the Gemini model call, the SerpAPI shopping
  search, the HTTP fetch plus BeautifulSoup HTML parse, the stdlib JSON
  parser) are abstracted as oracle parameters, exactly at the call
  boundary where the source hands data to those libraries;
* thread pools (`search_items_parallel`, `parallel_scrape_google_products`)
  are embedded as in-submission-order maps over the inputs: the source
  collects results `as_completed`, so the result *order* is
  nondeterministic, and every property proved below is invariant under
  permutation of those result lists.
-/

/-! ## Python string primitives

All primitives are structural recursions over `List Char` (the `data`
field of `String`), so that every definition in this file evaluates by
kernel reduction on concrete inputs. -/

/-- Python `str.lower()` restricted to ASCII (all table entries and the
queries of the claims are ASCII). -/
def pyLower (s : String) : String := String.mk (s.data.map Char.toLower)

/-- Python `str.upper()` restricted to ASCII. -/
def pyUpper (s : String) : String := String.mk (s.data.map Char.toUpper)

/-- Python `str.strip()`: drop leading/trailing whitespace. -/
def pyStrip (s : String) : String :=
  String.mk (((s.data.dropWhile Char.isWhitespace).reverse.dropWhile
    Char.isWhitespace).reverse)

/-- Substring test: `listInfixB p s = true` iff `p` occurs contiguously in
`s` (Python `p in s` on strings, char lists spelled out). -/
def listInfixB (p : List Char) : List Char → Bool
  | [] => p.isEmpty
  | c :: rest => p.isPrefixOf (c :: rest) || listInfixB p rest

/-- Python `pat in s` for strings. -/
def strContains (s pat : String) : Bool := listInfixB pat.data s.data

/-- Python `str.startswith(pat)`. -/
def strStartsWith (s pat : String) : Bool := pat.data.isPrefixOf s.data

/-- Python `str.endswith(pat)` for a single-character suffix. -/
def strEndsWithChar (s : String) (c : Char) : Bool :=
  match s.data.getLast? with
  | some d => d = c
  | none => false

/-- Python `s[:-1]`. -/
def strDropLast (s : String) : String := String.mk s.data.dropLast

/-- Python `len(s)` (characters). -/
def strLen (s : String) : Nat := s.data.length

/-- Python `s[:n]`. -/
def strTake (s : String) (n : Nat) : String := String.mk (s.data.take n)

/-- Python `s[n:]`. -/
def strDrop (s : String) (n : Nat) : String := String.mk (s.data.drop n)

/-- Worker for `strReplace`; the fuel argument (initialised with the
string length) makes the recursion structural. -/
def replaceListAux (pat rep : List Char) : Nat → List Char → List Char
  | 0, cs => cs
  | Nat.succ n, cs =>
    match cs with
    | [] => []
    | c :: rest =>
      if !pat.isEmpty && pat.isPrefixOf cs then
        rep ++ replaceListAux pat rep n (cs.drop pat.length)
      else c :: replaceListAux pat rep n rest

/-- Python `s.replace(pat, rep)`: replace every non-overlapping
occurrence, scanning left to right. -/
def strReplace (s pat rep : String) : String :=
  String.mk (replaceListAux pat.data rep.data s.data.length s.data)

/-- Worker for `pySplit`. -/
def splitWsAux : List Char → List Char → List (List Char)
  | [], acc => if acc.isEmpty then [] else [acc.reverse]
  | c :: rest, acc =>
    if c.isWhitespace then
      if acc.isEmpty then splitWsAux rest []
      else acc.reverse :: splitWsAux rest []
    else splitWsAux rest (c :: acc)

/-- Python `str.split()` with no argument: split on whitespace runs,
dropping empty pieces. -/
def pySplit (s : String) : List String := (splitWsAux s.data []).map String.mk

/-- Worker for `splitOnChar`. -/
def splitOnCharAux (sep : Char) : List Char → List Char → List (List Char)
  | [], acc => [acc.reverse]
  | c :: rest, acc =>
    if c = sep then acc.reverse :: splitOnCharAux sep rest []
    else splitOnCharAux sep rest (c :: acc)

/-- Python `s.split(sep)` for a one-character separator: keeps empty
pieces and always yields at least one piece. -/
def splitOnChar (sep : Char) (s : String) : List String :=
  (splitOnCharAux sep s.data []).map String.mk

/-- Python `str.capitalize()`: first char upper, rest lower. -/
def pyCapitalize (s : String) : String :=
  match s.data with
  | [] => ""
  | c :: rest => String.mk (Char.toUpper c :: rest.map Char.toLower)

/-- Python regex substitution deleting every character that is not a word
character, whitespace or hyphen (so e.g. apostrophes are removed). -/
def pyCleanWord (w : String) : String :=
  String.mk (w.data.filter
    (fun c => c.isAlphanum || c = '_' || c.isWhitespace || c = '-'))

/-- Python truthiness of an optional string (`None` and `""` are falsy). -/
def pyTruthyStr : Option String → Bool
  | some s => s ≠ ""
  | none => false

/-- Python truthiness of an optional number (`None` and `0` are falsy). -/
def pyTruthyQ : Option ℚ → Bool
  | some v => v ≠ 0
  | none => false

/-- Python `round` to an integer: round-half-to-even (the floor is
spelled with `Int.fdiv` so the definition evaluates by kernel
reduction). -/
def pyRoundInt (q : ℚ) : ℤ :=
  let f : ℤ := q.num.fdiv (q.den : ℤ)
  let r : ℚ := q - (f : ℚ)
  if r < 1/2 then f
  else if 1/2 < r then f + 1
  else if f % 2 = 0 then f else f + 1

/-- Python `round(x, n)` on our exact-rational model of floats. -/
def pyRoundTo (n : ℕ) (q : ℚ) : ℚ :=
  (pyRoundInt (q * (10 : ℚ) ^ n) : ℚ) / (10 : ℚ) ^ n

/-! ## Item-type classifier (`extract_item_type_from_query`)

The pattern table, the single-word vocabulary, the irregular-plural table,
the gender markers, the modifier words and the clothing indicators are
transcribed verbatim (in order, duplicates included) from the source. -/

def multi_word_patterns : List (String × String) := [
  ("tank top", "tank_top"),
  ("tube top", "tube_top"),
  ("crop top", "crop_top"),
  ("halter top", "halter_top"),
  ("mock neck", "turtleneck"),
  ("cowl neck", "sweater"),
  ("v-neck", "shirt"),
  ("crew neck", "shirt"),
  ("crewneck", "shirt"),
  ("leather jacket", "leather_jacket"),
  ("denim jacket", "denim_jacket"),
  ("jean jacket", "denim_jacket"),
  ("bomber jacket", "bomber_jacket"),
  ("puffer jacket", "puffer_jacket"),
  ("down jacket", "puffer_jacket"),
  ("track jacket", "track_jacket"),
  ("varsity jacket", "varsity_jacket"),
  ("rain jacket", "raincoat"),
  ("trench coat", "trench_coat"),
  ("pea coat", "peacoat"),
  ("duffle coat", "coat"),
  ("cargo pants", "cargo_pants"),
  ("cargo shorts", "cargo_shorts"),
  ("yoga pants", "yoga_pants"),
  ("track pants", "track_pants"),
  ("sweat pants", "sweatpants"),
  ("palazzo pants", "palazzo_pants"),
  ("wide leg pants", "wide_leg_pants"),
  ("straight leg pants", "pants"),
  ("skinny jeans", "skinny_jeans"),
  ("slim jeans", "jeans"),
  ("boyfriend jeans", "jeans"),
  ("mom jeans", "jeans"),
  ("bootcut jeans", "jeans"),
  ("bermuda shorts", "bermuda_shorts"),
  ("board shorts", "board_shorts"),
  ("bike shorts", "bike_shorts"),
  ("cycling shorts", "bike_shorts"),
  ("running shorts", "athletic_shorts"),
  ("athletic shorts", "athletic_shorts"),
  ("denim shorts", "denim_shorts"),
  ("jean shorts", "denim_shorts"),
  ("pencil skirt", "pencil_skirt"),
  ("a-line skirt", "a_line_skirt"),
  ("a line skirt", "a_line_skirt"),
  ("circle skirt", "circle_skirt"),
  ("pleated skirt", "pleated_skirt"),
  ("wrap skirt", "wrap_skirt"),
  ("mini skirt", "mini_skirt"),
  ("midi skirt", "midi_skirt"),
  ("maxi skirt", "maxi_skirt"),
  ("cocktail dress", "cocktail_dress"),
  ("evening dress", "evening_dress"),
  ("ball gown", "gown"),
  ("sheath dress", "sheath_dress"),
  ("shift dress", "shift_dress"),
  ("wrap dress", "wrap_dress"),
  ("shirt dress", "shirt_dress"),
  ("sweater dress", "sweater_dress"),
  ("jumper dress", "jumper_dress"),
  ("slip dress", "slip_dress"),
  ("bodycon dress", "bodycon_dress"),
  ("fit and flare dress", "fit_and_flare_dress"),
  ("a-line dress", "a_line_dress"),
  ("a line dress", "a_line_dress"),
  ("maxi dress", "maxi_dress"),
  ("midi dress", "midi_dress"),
  ("mini dress", "mini_dress"),
  ("sun dress", "sundress"),
  ("dress shirt", "dress_shirt"),
  ("button down", "button_down"),
  ("button up", "button_down"),
  ("oxford shirt", "oxford_shirt"),
  ("polo shirt", "polo"),
  ("rugby shirt", "rugby_shirt"),
  ("sports bra", "sports_bra"),
  ("compression shirt", "compression_shirt"),
  ("rash guard", "rashguard"),
  ("swim trunks", "swim_trunks"),
  ("swim shorts", "swim_shorts"),
  ("bathing suit", "swimsuit"),
  ("swimming costume", "swimsuit"),
  ("running shoes", "running_shoes"),
  ("tennis shoes", "sneakers"),
  ("athletic shoes", "sneakers"),
  ("high tops", "high_tops"),
  ("low tops", "sneakers"),
  ("high heels", "heels"),
  ("kitten heels", "heels"),
  ("block heels", "heels"),
  ("ankle boots", "ankle_boots"),
  ("knee high boots", "knee_high_boots"),
  ("over the knee boots", "over_knee_boots"),
  ("thigh high boots", "thigh_high_boots"),
  ("cowboy boots", "cowboy_boots"),
  ("combat boots", "combat_boots"),
  ("work boots", "work_boots"),
  ("hiking boots", "hiking_boots"),
  ("rain boots", "rain_boots"),
  ("snow boots", "snow_boots"),
  ("chelsea boots", "chelsea_boots"),
  ("desert boots", "desert_boots"),
  ("chukka boots", "chukka_boots"),
  ("ugg boots", "uggs"),
  ("boat shoes", "boat_shoes"),
  ("deck shoes", "boat_shoes"),
  ("driving shoes", "loafers"),
  ("penny loafers", "loafers"),
  ("ballet flats", "flats"),
  ("flip flops", "flip_flops"),
  ("gladiator sandals", "sandals"),
  ("baseball cap", "baseball_cap"),
  ("trucker hat", "trucker_hat"),
  ("bucket hat", "bucket_hat"),
  ("sun hat", "sun_hat"),
  ("winter hat", "beanie"),
  ("knit hat", "beanie"),
  ("bow tie", "bow_tie"),
  ("fanny pack", "fanny_pack"),
  ("waist pack", "fanny_pack"),
  ("belt bag", "belt_bag"),
  ("cross body bag", "crossbody_bag"),
  ("crossbody bag", "crossbody_bag"),
  ("shoulder bag", "shoulder_bag"),
  ("tote bag", "tote"),
  ("messenger bag", "messenger_bag"),
  ("boxer briefs", "boxer_briefs"),
  ("sports bra", "sports_bra"),
  ("boy shorts", "boyshorts"),
  ("one piece", "bodysuit"),
  ("two piece", "bikini")
]

def clothing_items_vocab : List String := [
  "parka",
  "anorak",
  "windbreaker",
  "raincoat",
  "peacoat",
  "overcoat",
  "blazer",
  "puffer",
  "bomber",
  "varsity",
  "mackintosh",
  "slicker",
  "hoodie",
  "hoody",
  "sweatshirt",
  "sweater",
  "jumper",
  "pullover",
  "cardigan",
  "cardi",
  "shrug",
  "bolero",
  "turtleneck",
  "henley",
  "polo",
  "tunic",
  "camisole",
  "cami",
  "blouse",
  "bodysuit",
  "leotard",
  "unitard",
  "jersey",
  "fleece",
  "thermal",
  "rashguard",
  "dress",
  "gown",
  "sundress",
  "pinafore",
  "smock",
  "frock",
  "jumpsuit",
  "romper",
  "playsuit",
  "onesie",
  "catsuit",
  "coveralls",
  "overalls",
  "dungarees",
  "shortalls",
  "jeans",
  "denim",
  "chinos",
  "khakis",
  "corduroys",
  "cords",
  "culottes",
  "gauchos",
  "joggers",
  "sweatpants",
  "sweats",
  "leggings",
  "tights",
  "jeggings",
  "treggings",
  "capris",
  "trousers",
  "slacks",
  "britches",
  "knickers",
  "shorts",
  "bermudas",
  "jorts",
  "cutoffs",
  "skirt",
  "kilt",
  "sarong",
  "tutu",
  "petticoat",
  "underwear",
  "panties",
  "briefs",
  "boxers",
  "thong",
  "boyshorts",
  "bra",
  "brassiere",
  "bralette",
  "bustier",
  "corset",
  "basque",
  "slip",
  "chemise",
  "teddy",
  "negligee",
  "lingerie",
  "pajamas",
  "pyjamas",
  "pjs",
  "nightgown",
  "nightie",
  "nightshirt",
  "robe",
  "bathrobe",
  "housecoat",
  "dressing gown",
  "swimsuit",
  "bikini",
  "tankini",
  "monokini",
  "wetsuit",
  "swimwear",
  "shoes",
  "sneakers",
  "trainers",
  "runners",
  "kicks",
  "boots",
  "booties",
  "wellies",
  "uggs",
  "wellingtons",
  "heels",
  "stilettos",
  "pumps",
  "platforms",
  "wedges",
  "flats",
  "espadrilles",
  "mules",
  "clogs",
  "slides",
  "sandals",
  "flip-flops",
  "thongs",
  "huaraches",
  "birkenstocks",
  "loafers",
  "moccasins",
  "oxfords",
  "brogues",
  "derbies",
  "cleats",
  "spikes",
  "hat",
  "cap",
  "beanie",
  "beret",
  "fedora",
  "trilby",
  "panama",
  "bowler",
  "sombrero",
  "fascinator",
  "headband",
  "headscarf",
  "turban",
  "visor",
  "snapback",
  "stetson",
  "scarf",
  "tie",
  "necktie",
  "ascot",
  "cravat",
  "bandana",
  "gloves",
  "mittens",
  "gauntlets",
  "belt",
  "sash",
  "cummerbund",
  "suspenders",
  "braces",
  "bag",
  "purse",
  "handbag",
  "clutch",
  "wristlet",
  "wallet",
  "backpack",
  "rucksack",
  "satchel",
  "tote",
  "briefcase",
  "sari",
  "saree",
  "kimono",
  "yukata",
  "cheongsam",
  "qipao",
  "dirndl",
  "lederhosen",
  "poncho",
  "serape",
  "dashiki",
  "kaftan",
  "thobe",
  "abaya",
  "hijab",
  "burqa",
  "niqab",
  "dhoti",
  "lungi",
  "hanbok",
  "kente",
  "suit",
  "tuxedo",
  "tux",
  "waistcoat",
  "vest",
  "gilet",
  "jacket",
  "coat",
  "top",
  "shirt",
  "pants",
  "garment",
  "apparel"
]

def irregular_plurals : List (String × String) := [
  ("scarves", "scarf"),
  ("gloves", "glove"),
  ("clothes", "clothing"),
  ("jeans", "jeans"),
  ("pants", "pants"),
  ("shorts", "shorts"),
  ("tights", "tights"),
  ("glasses", "glasses")
]

def gender_markers : List String :=
  ["women\x27s", "womens", "women\x27s", "men\x27s", "mens", "men\x27s",
   "girls", "boys", "ladies", "unisex", "kids", "children\x27s", "childrens"]

def modifier_words : List String :=
  ["vintage", "casual", "formal", "summer", "winter", "spring", "fall",
   "designer", "luxury", "cheap", "discount", "new", "used", "small",
   "medium", "large", "xl", "xxl", "plus", "size", "petite", "tall"]

def clothing_indicators : List String :=
  ["wear", "outfit", "apparel", "garment", "attire", "clothing", "fashion"]

/-- One word of the exact-match stage: check the cleaned word against the
vocabulary, then its regular-plural stem, then the irregular-plural
table — in that order, as in the per-word body of the source. -/
def matchCleanWord (cw : String) : Option String :=
  if clothing_items_vocab.contains cw then some cw
  else if strEndsWithChar cw 's' && clothing_items_vocab.contains (strDropLast cw) then
    some (strDropLast cw)
  else (irregular_plurals.find? (fun pr => pr.1 = cw)).map Prod.snd

/-- The `for word in words` loop of the exact-match stage. -/
def firstWordMatch : List String → Option String
  | [] => none
  | w :: rest =>
    match matchCleanWord (pyCleanWord w) with
    | some t => some t
    | none => firstWordMatch rest

/-- Skip leading modifier words (the `while j < len(words)` loop); return
the first non-modifier word, if any. -/
def afterModifiers : List String → Option String
  | [] => none
  | w :: rest => if modifier_words.contains w then afterModifiers rest else some w

/-- The gender-marker lookahead loop: on a marker with at least one
following word, skip modifiers and test the next word (exact, then
regular-plural stem); on no match the outer loop continues. -/
def genderScan : List String → Option String
  | [] => none
  | w :: rest =>
    if gender_markers.contains w && !rest.isEmpty then
      match afterModifiers rest with
      | some pot =>
        if clothing_items_vocab.contains pot then some pot
        else if strEndsWithChar pot 's' && clothing_items_vocab.contains (strDropLast pot) then
          some (strDropLast pot)
        else genderScan rest
      | none => genderScan rest
    else genderScan rest

/-- The classifier `extract_item_type_from_query`.  The argument is `Option String` so
that Python `None` (falsy, like `""`) is representable.  Stages, in source
order: multi-word phrase containment, per-word exact/plural/irregular
match, vocabulary-substring containment, gender-marker lookahead,
clothing-indicator containment, default.  (The last two both yield
`"clothing"`, exactly as in the source.) -/
def extract_item_type_from_query (query : Option String) : String :=
  match query with
  | none => "unknown"
  | some q =>
    if q = "" then "unknown"
    else
      let ql := pyStrip (pyLower q)
      match multi_word_patterns.find? (fun pr => strContains ql pr.1) with
      | some pr => pr.2
      | none =>
        let words := pySplit ql
        match firstWordMatch words with
        | some t => t
        | none =>
          match clothing_items_vocab.find? (fun item => strContains ql item) with
          | some item => item
          | none =>
            match genderScan words with
            | some t => t
            | none =>
              if clothing_indicators.any (fun ind => strContains ql ind) then "clothing"
              else "clothing"

/-! ## Normalization step (`normalize_item_type`) -/

def item_type_normalizations : List (String × String) := [
  ("sneakers", "shoes"), ("trainers", "shoes"), ("runners", "shoes"),
  ("heels", "shoes"), ("stilettos", "shoes"), ("pumps", "shoes"),
  ("platforms", "shoes"), ("wedges", "shoes"), ("flats", "shoes"),
  ("loafers", "shoes"), ("moccasins", "shoes"), ("oxfords", "shoes"),
  ("brogues", "shoes"), ("derbies", "shoes"), ("espadrilles", "shoes"),
  ("mules", "shoes"), ("clogs", "shoes"), ("slides", "shoes"),
  ("sandals", "shoes"), ("flip-flops", "shoes"), ("thongs", "shoes"),
  ("booties", "boots"), ("wellies", "boots"), ("uggs", "boots"),
  ("blazer", "jacket"), ("bomber", "jacket"), ("puffer", "jacket"),
  ("varsity", "jacket"), ("windbreaker", "jacket"),
  ("parka", "coat"), ("peacoat", "coat"), ("overcoat", "coat"),
  ("raincoat", "coat"), ("anorak", "coat"),
  ("jeans", "pants"), ("chinos", "pants"), ("khakis", "pants"),
  ("trousers", "pants"), ("slacks", "pants"), ("joggers", "pants"),
  ("sweatpants", "pants"), ("leggings", "pants"), ("tights", "pants"),
  ("panties", "underwear"), ("briefs", "underwear"), ("boxers", "underwear"),
  ("thong", "underwear"), ("boyshorts", "underwear")
]

/-- The function `normalize_item_type`: opt-in coarsening of specific types; not called
by the classifier itself. -/
def normalize_item_type (item_type : String) : String :=
  match item_type_normalizations.find? (fun pr => pr.1 = item_type) with
  | some pr => pr.2
  | none => item_type

/-! ## Raw SerpAPI product entries and per-product cleaning

`RawProduct` carries exactly the fields of a `shopping_results` entry the
cleaning code reads.  Numeric JSON values are exact rationals; `Option`
models a missing key or a JSON `null`.  The guard of `clean_single_product`
`if not product or not isinstance(product, dict): return None` rejects
non-dict entries, which the typed embedding excludes, so the embedded
function is total. -/

structure RawProduct where
  product_id : Option String
  position : Option Nat
  title : Option String
  price : Option String
  extracted_price : Option ℚ
  old_price : Option String
  extracted_old_price : Option ℚ
  thumbnail : Option String
  thumbnails : List String
  serpapi_thumbnails : List String
  product_link : Option String
  link : Option String
  source : Option String
  source_icon : Option String
  rating : Option ℚ
  reviews : Option ℤ
  delivery : Option String
  shipping : Option String
  tag : Option String
  extensions : List String
  deriving DecidableEq

structure PriceInfo where
  price_display : Option String
  price_numeric : Option ℚ
  old_price_display : Option String
  old_price_numeric : Option ℚ
  deriving DecidableEq

/-- The function `extract_price_info`: display strings are stripped (when truthy); the
numeric fields are `float(x) if x else None`, i.e. `None` when the
extracted value is missing or `0`; a leading `"Was "` label (any case) is
removed from the old-price display. -/
def extract_price_info (product : RawProduct) : PriceInfo :=
  let price_display :=
    if pyTruthyStr product.price then product.price.map pyStrip else product.price
  let old_price_display0 :=
    if pyTruthyStr product.old_price then product.old_price.map pyStrip
    else product.old_price
  let old_price_display :=
    match old_price_display0 with
    | some s =>
      if strStartsWith (pyLower s) "was " then some (pyStrip (strDrop s 4)) else some s
    | none => none
  { price_display := price_display
    price_numeric :=
      if pyTruthyQ product.extracted_price then product.extracted_price else none
    old_price_display := old_price_display
    old_price_numeric :=
      if pyTruthyQ product.extracted_old_price then product.extracted_old_price
      else none }

/-- Python regex search for one-or-more digits followed by a percent sign
(the source uses it in `extract_discount_info`): leftmost maximal digit
run immediately followed by the percent character (a shorter backtracked
run would end at a digit, never at a percent sign, so leftmost-maximal is
exactly the regex semantics). -/
def findPctNumber : List Char → Option String
  | [] => none
  | c :: rest =>
    if c.isDigit then
      match (c :: rest).dropWhile Char.isDigit with
      | '%' :: _ => some (String.mk ((c :: rest).takeWhile Char.isDigit))
      | _ => findPctNumber rest
    else findPctNumber rest

/-- First candidate string among `[tag] + extensions` that is truthy and
contains both `"%"` and (upper-cased) `"OFF"`, mapped to its `"N% OFF"`
rendering. -/
def findDiscountTag : List (Option String) → Option String
  | [] => none
  | item :: rest =>
    match item with
    | some s =>
      if s ≠ "" && strContains s "%" && strContains (pyUpper s) "OFF" then
        match findPctNumber s.data with
        | some digits => some (digits ++ "% OFF")
        | none => findDiscountTag rest
      else findDiscountTag rest
    | none => findDiscountTag rest

/-- The function `extract_discount_info` (the `percentage` field of its result dict):
explicit `"N% OFF"` tag/extension first, else `round((old-new)/old*100)`
when both numeric prices are truthy and old > new. -/
def extract_discount_info (product : RawProduct) (price_info : PriceInfo) :
    Option String :=
  let tagged := findDiscountTag (product.tag :: product.extensions.map some)
  match tagged with
  | some d => some d
  | none =>
    if pyTruthyQ price_info.price_numeric && pyTruthyQ price_info.old_price_numeric then
      match price_info.price_numeric, price_info.old_price_numeric with
      | some new_price, some old_price =>
        if old_price > new_price then
          some (toString (pyRoundInt (((old_price - new_price) / old_price) * 100)) ++ "% OFF")
        else none
      | _, _ => none
    else none

/-- The function `get_best_image_url`: thumbnail, else `thumbnails[0]`, else
`serpapi_thumbnails[0]`, with Python truthiness at each step. -/
def get_best_image_url (product : RawProduct) : Option String :=
  let image_url := product.thumbnail
  let image_url :=
    if pyTruthyStr image_url then image_url
    else match product.thumbnails with
      | t :: _ => some t
      | [] => image_url
  if pyTruthyStr image_url then image_url
  else match product.serpapi_thumbnails with
    | t :: _ => some t
    | [] => image_url

/-- The function `extract_product_tags`: the tag (if truthy) followed by each truthy
extension not already collected. -/
def extract_product_tags (product : RawProduct) : List String :=
  let tags := match product.tag with
    | some t => if t ≠ "" then [t] else []
    | none => []
  product.extensions.foldl
    (fun acc ext => if ext ≠ "" && !acc.contains ext then acc ++ [ext] else acc)
    tags

/-- The function `clean_product_title`: placeholder for a falsy title, strip, truncate
over 100 chars to 97 plus an ellipsis. -/
def clean_product_title (title : String) : String :=
  if title = "" then "Untitled Product"
  else
    let title := pyStrip title
    if strLen title > 100 then strTake title 97 ++ "..." else title

/-- The function `clean_rating`: keep ratings in `[0, 5]` rounded to one decimal,
everything else becomes `None`. -/
def clean_rating (rating : Option ℚ) : Option ℚ :=
  match rating with
  | none => none
  | some r => if 0 ≤ r ∧ r ≤ 5 then some (pyRoundTo 1 r) else none

/-- The function `clean_review_count`: non-negative counts survive, negatives become
`None`. -/
def clean_review_count (reviews : Option ℤ) : Option ℤ :=
  match reviews with
  | none => none
  | some n => if n ≥ 0 then some n else none

structure PriceRange where
  min : ℚ
  max : ℚ
  average : ℚ
  deriving DecidableEq

/-- The function `calculate_price_range`: `None` on an empty list; drop non-positive
entries; `None` again if nothing is left; else min/max/mean rounded to two
decimals. -/
def calculate_price_range (prices : List ℚ) : Option PriceRange :=
  if prices.isEmpty then none
  else
    match prices.filter (fun p => 0 < p) with
    | [] => none
    | h :: t =>
      some { min := pyRoundTo 2 (t.foldl min h)
             max := pyRoundTo 2 (t.foldl max h)
             average := pyRoundTo 2 ((h + t.foldl (· + ·) 0) / ((h :: t).length : ℚ)) }

/-- The `id` field of a cleaned product: `product_id` when truthy, else
the raw `position` value (no truthiness on the fallback), else the string
`"unknown"`. -/
inductive ProductId where
  | str (s : String)
  | num (n : Nat)
  deriving DecidableEq

/-- A direct-link record as built by `extract_direct_links_for_products`. -/
structure DirectLink where
  id : String
  retailer_url : String
  retailer_name : String
  retailer_domain : String
  is_active : Bool
  created_at : String
  deriving DecidableEq

/-- A cleaned product.  `direct_links = none` models the `direct_links`
key being absent from the product dict (`clean_single_product` does not
set it); the Direct-Link Extractor stage stores `some links`. -/
structure CleanedProduct where
  id : ProductId
  title : String
  price : Option String
  price_numeric : Option ℚ
  old_price : Option String
  old_price_numeric : Option ℚ
  discount_percentage : Option String
  image_url : Option String
  product_url : Option String
  source : String
  source_icon : Option String
  rating : Option ℚ
  review_count : Option ℤ
  delivery_info : Option String
  tags : List String
  direct_links : Option (List DirectLink)
  deriving DecidableEq

/-- The function `clean_single_product` (total on dict entries, see `RawProduct`). -/
def clean_single_product (product : RawProduct) : CleanedProduct :=
  let price_info := extract_price_info product
  let discount := extract_discount_info product price_info
  let image_url := get_best_image_url product
  let product_url :=
    if pyTruthyStr product.product_link then product.product_link else product.link
  let delivery_info :=
    if pyTruthyStr product.delivery then product.delivery else product.shipping
  { id :=
      match product.product_id with
      | some s =>
        if s ≠ "" then ProductId.str s
        else match product.position with
          | some n => ProductId.num n
          | none => ProductId.str "unknown"
      | none =>
        match product.position with
        | some n => ProductId.num n
        | none => ProductId.str "unknown"
    title := clean_product_title (product.title.getD "")
    price := price_info.price_display
    price_numeric := price_info.price_numeric
    old_price := price_info.old_price_display
    old_price_numeric := price_info.old_price_numeric
    discount_percentage := discount
    image_url := image_url
    product_url := product_url
    source := product.source.getD "Unknown"
    source_icon := product.source_icon
    rating := clean_rating product.rating
    review_count := clean_review_count product.reviews
    delivery_info := delivery_info
    tags := extract_product_tags product
    direct_links := none }

/-! ## Result cleaning (`clean_search_results_for_frontend`)

A `RawResult` is one `search_items_parallel` entry: `original_query` is
the tag added by `search_shopping_item` (`none` models a missing key, read
back with default `"Unknown query"`), `error` models the presence of the
`"error"` key, `shopping_results` the `"shopping_results"` list (missing
key read back as `[]`). -/

structure RawResult where
  original_query : Option String
  error : Option String
  shopping_results : List RawProduct
  deriving DecidableEq

structure ClothingItem where
  query : String
  item_type : String
  products : List CleanedProduct
  total_products : Nat
  price_range : Option PriceRange
  deriving DecidableEq

structure ErrorItem where
  query : String
  error : String
  deriving DecidableEq

structure ResultSummary where
  total_items : Nat
  total_products : Nat
  has_errors : Bool
  error_items : List ErrorItem
  deriving DecidableEq

structure CleanedData where
  clothing_items : List ClothingItem
  summary : ResultSummary
  deriving DecidableEq

/-- The `if cleaned_product["price_numeric"]:` collection of the prices
list: keep truthy numeric prices. -/
def truthyPrice (cp : CleanedProduct) : Option ℚ :=
  match cp.price_numeric with
  | some v => if v ≠ 0 then some v else none
  | none => none

/-- The per-result body of the loop of `clean_search_results_for_frontend`:
an error entry (error key present, or empty `shopping_results`) or a
cleaned clothing item.  (`item_type` is computed before the error check in
the source but unused on the error path.) -/
def processOne (result : RawResult) : ErrorItem ⊕ ClothingItem :=
  let original_query := result.original_query.getD "Unknown query"
  let item_type := extract_item_type_from_query (some original_query)
  match result.error with
  | some e => Sum.inl ⟨original_query, e⟩
  | none =>
    match result.shopping_results with
    | [] => Sum.inl ⟨original_query, "No shopping results found"⟩
    | shopping_results =>
      let cleaned_products := shopping_results.map clean_single_product
      let prices := cleaned_products.filterMap truthyPrice
      let price_range := if !prices.isEmpty then calculate_price_range prices else none
      Sum.inr
        { query := original_query
          item_type := item_type
          products := cleaned_products
          total_products := cleaned_products.length
          price_range := price_range }

/-- The accumulation loop, in input order: cleaned items, error items and
the running product total. -/
def cleanLoop : List RawResult → List ClothingItem × List ErrorItem × Nat
  | [] => ([], [], 0)
  | r :: rest =>
    let acc := cleanLoop rest
    match processOne r with
    | Sum.inl e => (acc.1, e :: acc.2.1, acc.2.2)
    | Sum.inr c => (c :: acc.1, acc.2.1, c.products.length + acc.2.2)

/-- The function `clean_search_results_for_frontend`. -/
def clean_search_results_for_frontend (raw_search_results : List RawResult) :
    CleanedData :=
  if raw_search_results.isEmpty then
    { clothing_items := []
      summary := { total_items := 0, total_products := 0, has_errors := false,
                   error_items := [] } }
  else
    let acc := cleanLoop raw_search_results
    { clothing_items := acc.1
      summary := { total_items := acc.1.length
                   total_products := acc.2.2
                   has_errors := !acc.2.1.isEmpty
                   error_items := acc.2.1 } }

/-! ## Parallel shopping search (`search_shopping_item`,
`search_items_parallel`)

The SerpAPI call `SerpAPISearch(params).get_dict()` is an oracle
`String → SearchOutcome` per query: `ok err srs` is a returned dict (which
may itself carry an `"error"` key and a `shopping_results` list), `raise`
is an exception escaping the call.  The locale parameters only enter the
API parameters, hence the oracle is keyed by the query alone. -/

inductive SearchOutcome where
  | ok (err : Option String) (shopping_results : List RawProduct)
  | raise (msg : String)
  deriving DecidableEq

/-- The function `search_shopping_item`: missing API key gives an untagged error dict;
an exception is caught and returned as an error tagged with the query; a
returned dict is tagged with the query. -/
def search_shopping_item (serpapi_key : Option String)
    (oracle : String → SearchOutcome) (query : String)
    (_country _language : String) : RawResult :=
  match serpapi_key with
  | none =>
    { original_query := none
      error := some "SERPAPI_API_KEY not set in environment variables"
      shopping_results := [] }
  | some _ =>
    match oracle query with
    | SearchOutcome.ok err srs =>
      { original_query := some query, error := err, shopping_results := srs }
    | SearchOutcome.raise msg =>
      { original_query := some query
        error := some ("Error in search_shopping_item: " ++ msg)
        shopping_results := [] }

/-- The function `search_items_parallel`: one result per query.  The thread pool
returns results `as_completed`; the embedding fixes submission order (the
claims proved about it are permutation-invariant).  The `except` branch
of the collection loop is dead code: `search_shopping_item` catches every
exception.  `max_workers` only sizes the pool. -/
def search_items_parallel (serpapi_key : Option String)
    (oracle : String → SearchOutcome) (queries : List String)
    (country language : String) (_max_workers : Nat := 5) : List RawResult :=
  queries.map (fun q => search_shopping_item serpapi_key oracle q country language)

/-! ## Vision-extractor conversation state and `redo_search_queries`

A history part is either plain text or the raw image payload; histories
kept for bookkeeping store only the text placeholder `"[IMAGE_DATA]"`.
The Gemini call is an oracle `List Content → String` (the response text),
and `json.loads` restricted to arrays of strings is an oracle
`String → Option (List String)` (`none` = `JSONDecodeError`). -/

inductive MsgPart where
  | text (s : String)
  | image (bytes : List Nat)
  deriving DecidableEq

structure Content where
  role : String
  parts : List MsgPart
  deriving DecidableEq

/-- The `queries` entry of a conversation context: a parsed JSON array of
query strings, or the structured error dict of a failed extraction. -/
inductive QueryOutcome where
  | ok (queries : List String)
  | err (message : String)
  deriving DecidableEq

/-- The dict returned by `create_search_query_gemini(...,
return_conversation=True)`, as consumed by `redo_search_queries`.  The
`"conversation_history" not in conversation_context` guard is a type
invariant here (the field always exists). -/
structure ConversationContext where
  queries : QueryOutcome
  conversation_history : List Content
  image_bytes : List Nat
  system_prompt : String
  model : String
  deriving DecidableEq

/-- The guard test of redo, membership of the string error in the queries
entry: key membership
for the error dict, *element* membership for a query list. -/
def hasErrorQueries : QueryOutcome → Bool
  | QueryOutcome.err _ => true
  | QueryOutcome.ok qs => qs.contains "error"

def default_feedback_message : String :=
  "The search queries you provided were not very good and didn\x27t yield useful results when searching for these clothing items. Please analyze the image again more carefully and generate better, more specific search queries. Focus on:\n\n1. More precise item descriptions and terminology\n2. Better color descriptions  \n3. More specific style details and distinguishing features\n4. Alternative ways to describe the same items that might work better for online shopping searches\n\nPlease provide new search queries in the same JSON array format. Make sure to include each clothing item in the image as before."

/-- The feedback actually used: the message of the caller, or the default. -/
def redo_feedback (feedback_message : Option String) : String :=
  feedback_message.getD default_feedback_message

/-- Python `"[IMAGE_DATA]" in str(part)`. -/
def partHasImageMarker : MsgPart → Bool
  | MsgPart.text s => strContains s "[IMAGE_DATA]"
  | MsgPart.image _ => false

/-- Text of a part (`part["text"]`); an image part has no text entry. -/
def partText : MsgPart → String
  | MsgPart.text s => s
  | MsgPart.image _ => ""

/-- Rebuild one history message for the API: a user message holding the
placeholder gets the real image bytes plus its `parts[1]` text. -/
def reconstructMsg (image_bytes : List Nat) (msg : Content) : Content :=
  if msg.role = "user" && msg.parts.any partHasImageMarker then
    { role := "user"
      parts := [MsgPart.image image_bytes,
                MsgPart.text (partText (msg.parts.getD 1 (MsgPart.text "")))] }
  else msg

/-- History after appending the feedback turn. -/
def redo_updated (ctx : ConversationContext) (feedback_message : Option String) :
    List Content :=
  ctx.conversation_history ++
    [{ role := "user", parts := [MsgPart.text (redo_feedback feedback_message)] }]

/-- The conversation actually sent to the model (image bytes spliced back
in). -/
def redo_api_conversation (ctx : ConversationContext)
    (feedback_message : Option String) : List Content :=
  (redo_updated ctx feedback_message).map (reconstructMsg ctx.image_bytes)

/-- Python `response.text.strip()` for the redo call. -/
def redo_response_text (model_call : List Content → String)
    (ctx : ConversationContext) (feedback_message : Option String) : String :=
  pyStrip (model_call (redo_api_conversation ctx feedback_message))

/-- Python regex search for a DOTALL bracketed substring, as used on the
model response: with the dot matching newlines, the greedy match runs
from the first opening square bracket to the last closing square bracket,
provided the latter comes after the former. -/
def extractJsonArray (s : String) : Option String :=
  let cs := s.data
  match cs.findIdx? (fun c => c = '[') with
  | none => none
  | some i =>
    match (cs.reverse.findIdx? (fun c => c = ']')) with
    | none => none
    | some jr =>
      let j := cs.length - 1 - jr
      if i < j then some (String.mk ((cs.drop i).take (j - i + 1))) else none

/-- The string handed to `json.loads`: the bracketed match if the regex
found one, else the whole response text. -/
def redo_parse_input (model_call : List Content → String)
    (ctx : ConversationContext) (feedback_message : Option String) : String :=
  let rt := redo_response_text model_call ctx feedback_message
  (extractJsonArray rt).getD rt

/-- Result of `redo_search_queries`: success dict, JSON-decode-failure
dict (with the attempted parse input as `raw_response` and the extended
history), or bare error dict. -/
inductive RedoResult where
  | ok (queries : List String) (conversation_history : List Content)
      (image_bytes : List Nat) (system_prompt : String) (model : String)
      (feedback_used : String)
  | parseError (raw_response : String) (conversation_history : List Content)
      (image_bytes : List Nat) (system_prompt : String) (model : String)
  | error (message : String)
  deriving DecidableEq

/-- The conversation history of a successful redo, if any. -/
def RedoResult.okHistory? : RedoResult → Option (List Content)
  | RedoResult.ok _ h _ _ _ _ => some h
  | _ => none

/-- The function `redo_search_queries`.  The generic exception wrapper is dead in the
embedding (the oracles are total); the JSON parser and the model call are
oracle parameters. -/
def redo_search_queries (json_parse : String → Option (List String))
    (model_call : List Content → String) (ctx : ConversationContext)
    (feedback_message : Option String) : RedoResult :=
  if hasErrorQueries ctx.queries then
    RedoResult.error "Cannot redo queries from a failed initial request"
  else
    let rt := redo_response_text model_call ctx feedback_message
    let final_conversation :=
      redo_updated ctx feedback_message ++
        [{ role := "model", parts := [MsgPart.text rt] }]
    match json_parse (redo_parse_input model_call ctx feedback_message) with
    | some new_queries =>
      RedoResult.ok new_queries final_conversation ctx.image_bytes
        ctx.system_prompt ctx.model (redo_feedback feedback_message)
    | none =>
      RedoResult.parseError (redo_parse_input model_call ctx feedback_message)
        final_conversation ctx.image_bytes ctx.system_prompt ctx.model

/-! ## Aggregator scraping (`extract_retailer_urls`, `scrape_single_url`)

One `requests.get` + BeautifulSoup parse is an oracle value: `ok anchors`
is a 200 page whose retailer-link anchors have already been run through
`extract_actual_url` (each anchor contributes `some url` when a `q`
query parameter was recovered, `none` otherwise); `httpErr status` is a
response for which `raise_for_status()` raises `requests.HTTPError`;
`exn` is any other exception during fetch or parse.  The fetch oracle of
`scrape_single_url` is indexed by the call count, so an input can change
between retries (e.g. 429 first, success second). -/

inductive FetchResult where
  | ok (anchors : List (Option String))
  | httpErr (status : Nat)
  | exn (msg : String)
  deriving DecidableEq

/-- The anchor loop of `extract_retailer_urls`: keep truthy extracted
URLs, first occurrence only. -/
def collectAnchors : List (Option String) → List String → List String
  | [], acc => acc
  | a :: rest, acc =>
    match a with
    | some url =>
      if url ≠ "" && !acc.contains url then collectAnchors rest (acc ++ [url])
      else collectAnchors rest acc
    | none => collectAnchors rest acc

/-- The function `extract_retailer_urls`.  Both `except requests.RequestException`
(which covers `requests.HTTPError`, i.e. every non-2xx status, 429
included) and the generic `except Exception` print and return `[]` — so
this function never raises. -/
def extract_retailer_urls (page : FetchResult) : List String :=
  match page with
  | FetchResult.ok anchors => collectAnchors anchors []
  | FetchResult.httpErr _ => []
  | FetchResult.exn _ => []

/-- Result dict of `scrape_single_url` (wall-clock fields omitted). -/
structure ScrapeResult where
  url : String
  thread_id : Nat
  success : Bool
  retailer_urls : List String
  error : Option String
  attempts : Nat
  rate_limited : Bool
  deriving DecidableEq

/-- The retry loop of `scrape_single_url`.  Because
`extract_retailer_urls` never raises, the `except` arms of the source
(the 429/`rate_limited` branch among them) are unreachable; the only live
paths are non-empty result (success) and empty result (retry, then
terminal error).  `fuel` counts the remaining loop iterations, `call` the
fetch calls made so far; delays only sleep and are omitted. -/
def scrapeGo (fetch : Nat → FetchResult) (max_retries : Nat) :
    Nat → Nat → Nat → ScrapeResult → ScrapeResult
  | 0, _, _, result => result
  | Nat.succ fuel, attempt, call, result =>
    let result := { result with attempts := attempt + 1 }
    let retailer_urls := extract_retailer_urls (fetch call)
    if !retailer_urls.isEmpty then
      { result with success := true, retailer_urls := retailer_urls }
    else if attempt < max_retries then
      scrapeGo fetch max_retries fuel (attempt + 1) (call + 1) result
    else
      { result with error := some "No retailer URLs found after all retries" }

/-- The function `scrape_single_url` (argument tuple flattened; `delay` and
`backoff_factor` only control sleeps). -/
def scrape_single_url (fetch : Nat → FetchResult) (url : String) (_delay : ℚ)
    (max_retries : Nat) (_backoff_factor : ℚ) (thread_id : Nat) : ScrapeResult :=
  scrapeGo fetch max_retries (max_retries + 1) 0 0
    { url := url, thread_id := thread_id, success := false, retailer_urls := []
      error := none, attempts := 0, rate_limited := false }

/-! ## Direct-link extraction (`extract_direct_links_for_products`)

`parallel_scrape_google_products` runs `scrape_single_url` once per
distinct collected URL and partitions the outcomes into `successful`
(url ↦ retailer URLs) and `failed` (url ↦ error); the stats/progress-file
side channel does not feed back into the returned products.  The fetch
oracle is keyed by URL, then by per-URL call count.  The source then
walks `successful` and `failed`, writing `direct_links` into every
product that shares the URL; since the collected URLs are distinct, each
final state of each product depends only on the scrape outcome of its own URL, which
is how the embedding phrases the fan-out: a per-product update, applied
to every product of every item. -/

/-- Suffix after the first occurrence of `pat`, if any. -/
def afterSub (pat : List Char) : List Char → Option (List Char)
  | [] => if pat.isEmpty then some [] else none
  | c :: rest =>
    if pat.isPrefixOf (c :: rest) then some ((c :: rest).drop pat.length)
    else afterSub pat rest

/-- Python `urllib.parse.urlparse(url).netloc` for the absolute URLs handled
here: the text after the first `"//"` up to the next `/`, `?` or `#`
(empty for URLs with no `"//"`). -/
def urlNetloc (url : String) : String :=
  match afterSub ['/', '/'] url.data with
  | some rest =>
    String.mk (rest.takeWhile (fun c => c ≠ '/' && c ≠ '?' && c ≠ '#'))
  | none => ""

/-- The retailer name derived from a URL: netloc, lowered, `"www."`
stripped, first dot-label, capitalized. -/
def extract_retailer_name_from_url (url : String) : String :=
  let domain := strReplace (pyLower (urlNetloc url)) "www." ""
  pyCapitalize ((splitOnChar '.' domain).headD "")

/-- The retailer domain derived from a URL: netloc with `"www."`
stripped. -/
def extract_retailer_domain_local (url : String) : String :=
  strReplace (urlNetloc url) "www." ""

/-- The direct-link records built for the retailer list of one scraped URL;
`now` is `datetime.now().isoformat()` at fan-out time. -/
def mkDirectLinks (now : String) (retailer_urls : List String) : List DirectLink :=
  retailer_urls.enum.map (fun pr =>
    { id := "dl_live_" ++ toString pr.1
      retailer_url := pr.2
      retailer_name := extract_retailer_name_from_url pr.2
      retailer_domain := extract_retailer_domain_local pr.2
      is_active := true
      created_at := now })

/-- The aggregator-URL test, substring containment of the Google Shopping
marker in `product_url` (behind the `if product_url:` truthiness
guard). -/
def prodGoogleUrl (p : CleanedProduct) : Option String :=
  match p.product_url with
  | some u => if u ≠ "" && strContains u "google.com/shopping" then some u else none
  | none => none

/-- The URL-collection pass: the aggregator URL of every product, in product
order, first occurrence only. -/
def collectGoogleUrls (items : List ClothingItem) : List String :=
  (items.map (fun ci => ci.products)).flatten.foldl
    (fun acc p =>
      match prodGoogleUrl p with
      | some u => if acc.contains u then acc else acc ++ [u]
      | none => acc)
    []

/-- The per-product fan-out in the mixed path: an aggregator product gets
the scraped links of its URL (success) or `[]` (failure); any other product is
untouched. -/
def applyLinks (fetchFor : String → Nat → FetchResult) (now : String)
    (delay : ℚ) (p : CleanedProduct) : CleanedProduct :=
  match prodGoogleUrl p with
  | some u =>
    let r := scrape_single_url (fetchFor u) u delay 1 (3/2 : ℚ) 0
    if r.success then { p with direct_links := some (mkDirectLinks now r.retailer_urls) }
    else { p with direct_links := some [] }
  | none => p

/-- The function `extract_direct_links_for_products`.  Paths: empty `clothing_items`
(falsy) returns the input unchanged; no collected aggregator URL sets
`direct_links = []` on *every* product "for consistency"; otherwise the
scrape results are fanned out per product (`applyLinks`) — products with
no aggregator URL are not written to in this path.  The call passes
`max_retries=1` and `backoff_factor=1.5`; a scraping-stage exception
(dead here, the oracle is total) would set `[]` everywhere. -/
def extract_direct_links_for_products (fetchFor : String → Nat → FetchResult)
    (now : String) (cleaned_data : CleanedData) (_max_workers : Nat := 20)
    (delay : ℚ := 0) : CleanedData :=
  if cleaned_data.clothing_items.isEmpty then cleaned_data
  else
    let google_urls := collectGoogleUrls cleaned_data.clothing_items
    if google_urls.isEmpty then
      { cleaned_data with
        clothing_items :=
          cleaned_data.clothing_items.map (fun ci =>
            { ci with
              products :=
                ci.products.map (fun p => { p with direct_links := some [] }) }) }
    else
      { cleaned_data with
        clothing_items :=
          cleaned_data.clothing_items.map (fun ci =>
            { ci with
              products := ci.products.map (applyLinks fetchFor now delay) }) }

/-! ## Concrete sample inputs used by witnesses and counterexamples -/

/-- A shopping-results entry with every field absent. -/
def emptyRawProduct : RawProduct :=
  { product_id := none, position := none, title := none, price := none,
    extracted_price := none, old_price := none, extracted_old_price := none,
    thumbnail := none, thumbnails := [], serpapi_thumbnails := [],
    product_link := none, link := none, source := none, source_icon := none,
    rating := none, reviews := none, delivery := none, shipping := none,
    tag := none, extensions := [] }

/-! ## Invariants of the cleaning stage -/

/-- Whether a cleaned product carries a positive numeric price. -/
def positivePriceB (cp : CleanedProduct) : Bool :=
  match cp.price_numeric with
  | some v => decide (0 < v)
  | none => false

lemma calculate_price_range_eq_none_iff (prices : List ℚ) :
    calculate_price_range prices = none ↔ ∀ p ∈ prices, ¬ 0 < p := by
  unfold calculate_price_range
  cases prices with
  | nil => simp
  | cons h t =>
    simp only [List.isEmpty_cons, Bool.false_eq_true, if_false]
    cases hf : (h :: t).filter (fun p => decide (0 < p)) with
    | nil =>
      simp only [hf]
      constructor
      · intro _ p hp
        have := List.filter_eq_nil_iff.mp hf p hp
        simpa using this
      · intro _; trivial
    | cons f fs =>
      simp only [hf]
      constructor
      · intro hcontra; exact absurd hcontra (by simp)
      · intro hall
        have hfmem : f ∈ (h :: t).filter (fun p => decide (0 < p)) := by
          rw [hf]; exact List.mem_cons_self f fs
        have := List.mem_filter.mp hfmem
        exact absurd (of_decide_eq_true this.2) (hall f this.1)

lemma ite_price_range_eq_none_iff (prices : List ℚ) :
    ((if !prices.isEmpty then calculate_price_range prices else none) = none) ↔
      ∀ p ∈ prices, ¬ 0 < p := by
  cases prices with
  | nil => simp
  | cons h t =>
    simp only [List.isEmpty_cons, Bool.not_false, if_true]
    exact calculate_price_range_eq_none_iff _

lemma forall_truthy_prices_iff (cps : List CleanedProduct) :
    (∀ p ∈ cps.filterMap truthyPrice, ¬ 0 < p) ↔
      ∀ cp ∈ cps, positivePriceB cp = false := by
  constructor
  · intro H cp hcp
    unfold positivePriceB
    cases hpn : cp.price_numeric with
    | none => rfl
    | some v =>
      simp only [decide_eq_false_iff_not]
      intro hv
      have htp : truthyPrice cp = some v := by
        unfold truthyPrice; rw [hpn]; simp [ne_of_gt hv]
      exact H v (List.mem_filterMap.mpr ⟨cp, hcp, htp⟩) hv
  · intro H p hp
    obtain ⟨cp, hcp, htp⟩ := List.mem_filterMap.mp hp
    have hfalse := H cp hcp
    unfold truthyPrice at htp
    unfold positivePriceB at hfalse
    cases hpn : cp.price_numeric with
    | none => rw [hpn] at htp; simp at htp
    | some v =>
      rw [hpn] at htp hfalse
      simp only [decide_eq_false_iff_not] at hfalse
      by_cases hv : v = 0
      · subst hv; simp at htp
      · simp only [ne_eq, hv, not_false_eq_true, if_true, Option.some.injEq] at htp
        subst htp
        exact hfalse

lemma priceRangeExpr_none_iff (cps : List CleanedProduct) :
    ((if !(cps.filterMap truthyPrice).isEmpty then
        calculate_price_range (cps.filterMap truthyPrice) else none) = none) ↔
      ∀ cp ∈ cps, positivePriceB cp = false :=
  (ite_price_range_eq_none_iff _).trans (forall_truthy_prices_iff _)

/-- Every clothing item the cleaning loop emits: `total_products` counts
its products, and `price_range` is `none` exactly when no product has a
positive numeric price. -/
lemma cleanLoop_item_invariants :
    ∀ (raws : List RawResult), ∀ item ∈ (cleanLoop raws).1,
      item.total_products = item.products.length ∧
      (item.price_range = none ↔ ∀ cp ∈ item.products, positivePriceB cp = false)
  | [] => by simp [cleanLoop]
  | r :: rest => by
    intro item hmem
    simp only [cleanLoop] at hmem
    cases hpr : processOne r with
    | inl e =>
      rw [hpr] at hmem
      exact cleanLoop_item_invariants rest item hmem
    | inr c =>
      rw [hpr] at hmem
      rcases List.mem_cons.mp hmem with hc | hrest
      · subst hc
        unfold processOne at hpr
        cases herr : r.error with
        | some e => rw [herr] at hpr; simp at hpr
        | none =>
          rw [herr] at hpr
          cases hsrs : r.shopping_results with
          | nil => rw [hsrs] at hpr; simp at hpr
          | cons s ss =>
            rw [hsrs] at hpr
            simp only [Sum.inr.injEq] at hpr
            subst hpr
            exact ⟨rfl, priceRangeExpr_none_iff _⟩
      · exact cleanLoop_item_invariants rest item hrest

lemma clean_clothing_items_eq (raws : List RawResult) :
    (clean_search_results_for_frontend raws).clothing_items = (cleanLoop raws).1 := by
  unfold clean_search_results_for_frontend
  cases raws with
  | nil => simp [cleanLoop]
  | cons r rest => simp

/-- C8: for every `CleanedClothingItem` produced by
`clean_search_results_for_frontend`, `total_products` equals the length of
its `products` list. -/
theorem C8_total_products_eq_length (raws : List RawResult) (item : ClothingItem)
    (h : item ∈ (clean_search_results_for_frontend raws).clothing_items) :
    item.total_products = item.products.length := by
  rw [clean_clothing_items_eq] at h
  exact (cleanLoop_item_invariants raws item h).1

def c8result : RawResult :=
  { original_query := some "plain blue shirt", error := none,
    shopping_results := [emptyRawProduct] }

def blankItem : ClothingItem :=
  { query := "", item_type := "", products := [], total_products := 0,
    price_range := none }

/-- Witness for C8 at a concrete one-result input. -/
theorem C8_witness :
    ((clean_search_results_for_frontend [c8result]).clothing_items.headD
        blankItem).total_products =
      ((clean_search_results_for_frontend [c8result]).clothing_items.headD
        blankItem).products.length :=
  C8_total_products_eq_length [c8result] _ (by decide)

/-! ## C4: price_range nullity -/

/-- A raw result whose single product carries a *negative* extracted
price. -/
def negPriceResult : RawResult :=
  { original_query := some "red dress", error := none,
    shopping_results := [{ emptyRawProduct with extracted_price := some (-5) }] }

/-- C4 counterexample: the claimed invariant — `price_range` is `None`
iff no product has a non-null `price_numeric` — fails on a product with a
negative extracted price: its `price_numeric` is `some (-5)`, yet
`calculate_price_range` drops non-positive prices and `price_range` is
`None`. -/
theorem C4_counterexample :
    ¬ (∀ item ∈ (clean_search_results_for_frontend [negPriceResult]).clothing_items,
        (item.price_range = none ↔ ∀ cp ∈ item.products, cp.price_numeric = none)) := by
  decide

/-- C4 amended: for every `CleanedClothingItem` produced by
`clean_search_results_for_frontend`, `price_range` is `None` iff no
product in its list has a *positive* (non-null and `> 0`) numeric
price. -/
theorem C4_price_range_none_iff (raws : List RawResult) (item : ClothingItem)
    (h : item ∈ (clean_search_results_for_frontend raws).clothing_items) :
    item.price_range = none ↔ ∀ cp ∈ item.products, positivePriceB cp = false := by
  rw [clean_clothing_items_eq] at h
  exact (cleanLoop_item_invariants raws item h).2

/-- Witness for C4 at the negative-price input: the `price_range` of the
produced item is `None` even though a product carries `some (-5)`. -/
theorem C4_witness :
    ((clean_search_results_for_frontend [negPriceResult]).clothing_items.headD
        blankItem).price_range = none :=
  (C4_price_range_none_iff [negPriceResult] _ (by decide)).mpr (by decide)

/-! ## C10: zero extracted prices become null -/

/-- C10: a falsy (zero or missing) API-extracted price yields
`price_numeric = None`; consequently no cleaned product ever carries
`price_numeric = some 0`, so zero-priced products are excluded from price
statistics (which only consider non-null prices). -/
theorem C10_zero_price_is_none (product : RawProduct) :
    (product.extracted_price = some 0 →
      (extract_price_info product).price_numeric = none) ∧
    (extract_price_info product).price_numeric ≠ some 0 ∧
    (clean_single_product product).price_numeric ≠ some 0 := by
  have hmain : (extract_price_info product).price_numeric ≠ some 0 := by
    unfold extract_price_info
    cases hep : product.extracted_price with
    | none => simp [pyTruthyQ]
    | some v =>
      by_cases hv : v = 0
      · subst hv; simp [pyTruthyQ]
      · simp [pyTruthyQ, hv]
  refine ⟨?_, hmain, ?_⟩
  · intro h0
    unfold extract_price_info
    rw [h0]
    simp [pyTruthyQ]
  · show (extract_price_info product).price_numeric ≠ some 0
    exact hmain

/-- Witness for C10 at a concrete zero-priced product. -/
theorem C10_witness :
    ({ emptyRawProduct with extracted_price := some 0 } : RawProduct).extracted_price
        = some 0 ∧
      (extract_price_info
        { emptyRawProduct with extracted_price := some 0 }).price_numeric = none :=
  ⟨rfl, (C10_zero_price_is_none { emptyRawProduct with extracted_price := some 0 }).1 rfl⟩

/-! ## C9: falsy queries classify as "unknown" -/

/-- C9: a `None` or empty query yields the token `"unknown"` (not the
documented ultimate default `"clothing"`); `"clothing"` can only be
returned for a truthy (non-`None`, non-empty) query. -/
theorem C9_falsy_query_unknown :
    extract_item_type_from_query none = "unknown" ∧
    extract_item_type_from_query (some "") = "unknown" ∧
    (∀ q : Option String, extract_item_type_from_query q = "clothing" →
      ∃ s, q = some s ∧ s ≠ "") := by
  refine ⟨rfl, rfl, ?_⟩
  intro q hq
  match q with
  | none => exact absurd hq (by decide)
  | some s =>
    refine ⟨s, rfl, ?_⟩
    intro hs
    subst hs
    exact absurd hq (by decide)

/-- Witness for C9: a truthy query that matches no rule and falls back to
`"clothing"`. -/
theorem C9_witness :
    extract_item_type_from_query (some "hello") = "clothing" ∧
      ∃ s, (some "hello" : Option String) = some s ∧ s ≠ "" :=
  ⟨by decide, C9_falsy_query_unknown.2.2 (some "hello") (by decide)⟩

/-! ## C3: plural vs singular "running shoe(s)" -/

/-- C3 counterexample: the regular singular and plural of the same
garment do *not* always classify identically — `"blue running shoes"`
hits the multi-word pattern `"running shoes"`, while `"blue running
shoe"` matches nothing (the single-word vocabulary has `"shoes"` but not
`"shoe"`, and plural stemming only maps plural to singular) and falls
through to the default. -/
theorem C3_counterexample :
    extract_item_type_from_query (some "blue running shoes") ≠
      extract_item_type_from_query (some "blue running shoe") := by
  decide

/-- C3 amended: `"blue running shoes"` classifies as `"running_shoes"`
while `"blue running shoe"` falls back to `"clothing"`; plural/singular
agreement does hold for single-word vocabulary garments, e.g. `"blue
shirts"` and `"blue shirt"` both yield `"shirt"`. -/
theorem C3_amended_plural_behaviour :
    extract_item_type_from_query (some "blue running shoes") = "running_shoes" ∧
    extract_item_type_from_query (some "blue running shoe") = "clothing" ∧
    extract_item_type_from_query (some "blue shirts") = "shirt" ∧
    extract_item_type_from_query (some "blue shirt") = "shirt" := by
  refine ⟨by decide, by decide, by decide, by decide⟩

/-! ## C7: multi-word specificity -/

/-- C7: the query `"women\x27s black leather bomber jacket"` classifies via the
multi-word pattern table as `"bomber_jacket"`, not as the generic
`"jacket"` token. -/
theorem C7_bomber_jacket_specificity :
    extract_item_type_from_query (some "women\x27s black leather bomber jacket") =
        "bomber_jacket" ∧
      extract_item_type_from_query (some "women\x27s black leather bomber jacket") ≠
        "jacket" := by
  refine ⟨by decide, by decide⟩

/-! ## C1: 429-then-success retry scenario -/

/-- Fetch oracle: HTTP 429 on the first call, a page with one retailer
link on the second. -/
def c1Fetch : Nat → FetchResult
  | 0 => FetchResult.httpErr 429
  | _ => FetchResult.ok [some "https://www.nordstrom.com/p/1"]

/-- C1 evaluation at the scenario of the claim (`max_retries = 2`, 429 on the
first fetch, success on the second): the scrape succeeds on attempt 2,
but `rate_limited` stays `false` — the `HTTPError` raised by
`raise_for_status()` for the 429 is swallowed inside
`extract_retailer_urls` (whose `except requests.RequestException` covers
it and returns `[]`), so the retry happens through the empty-result path
and the dedicated 429 branch of `scrape_single_url`, which would set
`rate_limited = True`, is unreachable. -/
theorem C1_scrape_429_then_success :
    scrape_single_url c1Fetch "https://www.google.com/shopping/product/1" 0 2 2 0 =
      { url := "https://www.google.com/shopping/product/1", thread_id := 0,
        success := true, retailer_urls := ["https://www.nordstrom.com/p/1"],
        error := none, attempts := 2, rate_limited := false } := by
  decide

/-! ## C2: direct_links coverage -/

/-- A cleaned product with neutral fields. -/
def baseCleanedProduct : CleanedProduct :=
  { id := ProductId.str "p", title := "Product", price := none,
    price_numeric := none, old_price := none, old_price_numeric := none,
    discount_percentage := none, image_url := none, product_url := none,
    source := "Unknown", source_icon := none, rating := none,
    review_count := none, delivery_info := none, tags := [],
    direct_links := none }

/-- A product pointing at an aggregator (Google Shopping) page. -/
def pG : CleanedProduct :=
  { baseCleanedProduct with
    id := ProductId.str "g1",
    product_url := some "https://www.google.com/shopping/product/123" }

/-- A product pointing directly at a retailer. -/
def pN : CleanedProduct :=
  { baseCleanedProduct with
    id := ProductId.str "n1",
    product_url := some "https://www.nordstrom.com/p/9" }

def cexItem : ClothingItem :=
  { query := "red dress", item_type := "dress", products := [pG, pN],
    total_products := 2, price_range := none }

def cexData : CleanedData :=
  { clothing_items := [cexItem],
    summary := { total_items := 1, total_products := 2, has_errors := false,
                 error_items := [] } }

/-- Fetch oracle on which every scrape fails (HTTP 500 on every call). -/
def failFetch : String → Nat → FetchResult := fun _ _ => FetchResult.httpErr 500

/-- C2 counterexample: in a batch holding one aggregator product and one
retailer-URL product, after `extract_direct_links_for_products` the
retailer-URL product still has *no* `direct_links` key (`none`): the
claim that every product ends with a `direct_links` list fails. -/
theorem C2_counterexample :
    ¬ (∀ ci ∈ (extract_direct_links_for_products failFetch "t0" cexData).clothing_items,
        ∀ p ∈ ci.products, p.direct_links ≠ none) := by
  decide

lemma applyLinks_of_none (fetchFor : String → Nat → FetchResult) (now : String)
    (delay : ℚ) (p : CleanedProduct) (h : prodGoogleUrl p = none) :
    applyLinks fetchFor now delay p = p := by
  unfold applyLinks
  rw [h]

lemma applyLinks_isSome_of_some (fetchFor : String → Nat → FetchResult)
    (now : String) (delay : ℚ) (p : CleanedProduct) (u : String)
    (h : prodGoogleUrl p = some u) :
    (applyLinks fetchFor now delay p).direct_links.isSome = true := by
  unfold applyLinks
  rw [h]
  by_cases hr : (scrape_single_url (fetchFor u) u delay 1 (3/2 : ℚ) 0).success
  · simp only [hr, if_true, Option.isSome_some]
  · simp only [hr, Bool.false_eq_true, if_false, Option.isSome_some]

lemma prodGoogleUrl_applyLinks (fetchFor : String → Nat → FetchResult)
    (now : String) (delay : ℚ) (p : CleanedProduct) :
    prodGoogleUrl (applyLinks fetchFor now delay p) = prodGoogleUrl p := by
  unfold applyLinks
  cases h : prodGoogleUrl p with
  | none => exact h
  | some u =>
    by_cases hr : (scrape_single_url (fetchFor u) u delay 1 (3/2 : ℚ) 0).success
    · simp only [hr, if_true]
      exact h
    · simp only [hr, Bool.false_eq_true, if_false]
      exact h

/-- C2 amended: after `extract_direct_links_for_products` (on inputs whose
products start without a `direct_links` key, as `clean_single_product`
produces them) every product with an aggregator URL carries a
`direct_links` list; products without an aggregator URL receive an empty
`direct_links` list only when the whole batch contains *no* aggregator
URL — in a mixed batch they are left without the key. -/
theorem C2_direct_links_amended (fetchFor : String → Nat → FetchResult)
    (now : String) (data : CleanedData)
    (hin : ∀ ci ∈ data.clothing_items, ∀ p ∈ ci.products, p.direct_links = none) :
    ∀ ci ∈ (extract_direct_links_for_products fetchFor now data).clothing_items,
      ∀ p ∈ ci.products,
        ((prodGoogleUrl p).isSome = true → p.direct_links.isSome = true) ∧
        (collectGoogleUrls data.clothing_items = [] → p.direct_links = some []) ∧
        (collectGoogleUrls data.clothing_items ≠ [] →
          (prodGoogleUrl p).isSome = false → p.direct_links = none) := by
  intro ci hci p hp
  unfold extract_direct_links_for_products at hci
  by_cases hempty : data.clothing_items.isEmpty
  · rw [if_pos hempty] at hci
    rw [List.isEmpty_iff] at hempty
    rw [hempty] at hci
    exact absurd hci (List.not_mem_nil ci)
  · rw [if_neg hempty] at hci
    by_cases hg : (collectGoogleUrls data.clothing_items).isEmpty
    · rw [if_pos hg] at hci
      have hci' : ci ∈ data.clothing_items.map (fun ci =>
          { ci with products :=
              ci.products.map (fun p => { p with direct_links := some [] }) }) := hci
      obtain ⟨ci₀, hci₀, rfl⟩ := List.mem_map.mp hci'
      have hp' : p ∈ ci₀.products.map
          (fun p => { p with direct_links := some [] }) := hp
      obtain ⟨p₀, hp₀, rfl⟩ := List.mem_map.mp hp'
      refine ⟨fun _ => rfl, fun _ => rfl, fun hne _ => ?_⟩
      exact absurd (List.isEmpty_iff.mp hg) hne
    · rw [if_neg hg] at hci
      have hgne : collectGoogleUrls data.clothing_items ≠ [] := by
        intro h
        rw [h] at hg
        exact hg rfl
      have hci' : ci ∈ data.clothing_items.map (fun ci =>
          { ci with products := ci.products.map (applyLinks fetchFor now 0) }) := hci
      obtain ⟨ci₀, hci₀, rfl⟩ := List.mem_map.mp hci'
      have hp' : p ∈ ci₀.products.map (applyLinks fetchFor now 0) := hp
      obtain ⟨p₀, hp₀, rfl⟩ := List.mem_map.mp hp'
      cases hgu : prodGoogleUrl p₀ with
      | some u =>
        refine ⟨fun _ => applyLinks_isSome_of_some fetchFor now 0 p₀ u hgu,
          fun hnil => absurd hnil hgne, fun _ hfalse => ?_⟩
        rw [prodGoogleUrl_applyLinks, hgu] at hfalse
        simp at hfalse
      | none =>
        rw [applyLinks_of_none fetchFor now 0 p₀ hgu]
        refine ⟨fun hsome => ?_, fun hnil => absurd hnil hgne,
          fun _ _ => hin ci₀ hci₀ p₀ hp₀⟩
        rw [hgu] at hsome
        simp at hsome

/-- The clothing item `extract_direct_links_for_products` produces from
`cexItem` under the all-failing fetch oracle. -/
def c2OutItem : ClothingItem :=
  { cexItem with
    products := [{ pG with direct_links := some [] }, pN] }

/-- Witness for the amended C2 at the mixed concrete batch: the
aggregator product ends with a `direct_links` list, the retailer-URL
product is left without the key. -/
theorem C2_amended_witness :
    ({ pG with direct_links := some ([] : List DirectLink) } :
        CleanedProduct).direct_links.isSome = true ∧
      pN.direct_links = none := by
  have h := C2_direct_links_amended failFetch "t0" cexData (by decide)
  have hG := h c2OutItem (by decide) { pG with direct_links := some [] } (by decide)
  have hN := h c2OutItem (by decide) pN (by decide)
  exact ⟨hG.1 (by decide), hN.2.2 (by decide) (by decide)⟩

/-! ## C6: one failing query in a batch is isolated -/

/-- C6: in a 3-query batch where the shopping-search call raises for the
second query and returns non-empty product lists for the other two,
`search_items_parallel` yields exactly 3 results of which exactly one
carries an error, tagged with the failing query; cleaning that output
records the failing query in `summary.error_items`, emits no clothing
item for it, and processes the two other queries into clothing items. -/
theorem C6_failed_query_isolated (key : String) (oracle : String → SearchOutcome)
    (q1 q2 q3 m : String) (ps1 ps3 : List RawProduct)
    (h1 : oracle q1 = SearchOutcome.ok none ps1) (hps1 : ps1 ≠ [])
    (h2 : oracle q2 = SearchOutcome.raise m)
    (h3 : oracle q3 = SearchOutcome.ok none ps3) (hps3 : ps3 ≠ [])
    (country language : String) :
    (search_items_parallel (some key) oracle [q1, q2, q3] country language).length = 3 ∧
    ((search_items_parallel (some key) oracle [q1, q2, q3] country language).filter
        (fun r => r.error.isSome)).map (fun r => r.original_query) = [some q2] ∧
    (clean_search_results_for_frontend
        (search_items_parallel (some key) oracle [q1, q2, q3]
          country language)).summary.error_items.map ErrorItem.query = [q2] ∧
    (clean_search_results_for_frontend
        (search_items_parallel (some key) oracle [q1, q2, q3]
          country language)).clothing_items.map ClothingItem.query = [q1, q3] ∧
    ∀ item ∈ (clean_search_results_for_frontend
        (search_items_parallel (some key) oracle [q1, q2, q3]
          country language)).clothing_items, item.query ≠ q2 := by
  obtain ⟨s1, ss1, rfl⟩ : ∃ a l, ps1 = a :: l := by
    cases ps1 with
    | nil => exact absurd rfl hps1
    | cons a l => exact ⟨a, l, rfl⟩
  obtain ⟨s3, ss3, rfl⟩ : ∃ a l, ps3 = a :: l := by
    cases ps3 with
    | nil => exact absurd rfl hps3
    | cons a l => exact ⟨a, l, rfl⟩
  have hne1 : q1 ≠ q2 := by
    intro h
    rw [h, h2] at h1
    exact SearchOutcome.noConfusion h1
  have hne3 : q3 ≠ q2 := by
    intro h
    rw [h, h2] at h3
    exact SearchOutcome.noConfusion h3
  have hclean : (clean_search_results_for_frontend
      (search_items_parallel (some key) oracle [q1, q2, q3]
        country language)).clothing_items.map ClothingItem.query = [q1, q3] := by
    simp [search_items_parallel, search_shopping_item, h1, h2, h3,
      clean_search_results_for_frontend, cleanLoop, processOne]
  refine ⟨?_, ?_, ?_, hclean, ?_⟩
  · simp [search_items_parallel]
  · simp [search_items_parallel, search_shopping_item, h1, h2, h3]
  · simp [search_items_parallel, search_shopping_item, h1, h2, h3,
      clean_search_results_for_frontend, cleanLoop, processOne]
  · intro item hmem
    have hq : item.query ∈ [q1, q3] := by
      rw [← hclean]
      exact List.mem_map_of_mem ClothingItem.query hmem
    have hq' : item.query = q1 ∨ item.query = q3 := by
      simpa using hq
    rcases hq' with h | h
    · exact h ▸ hne1
    · exact h ▸ hne3

/-- Shopping-search oracle raising only on `"q2"`. -/
def c6Oracle : String → SearchOutcome := fun q =>
  if q = "q2" then SearchOutcome.raise "boom"
  else SearchOutcome.ok none [emptyRawProduct]

/-- Witness for C6 at a concrete 3-query batch. -/
theorem C6_witness :
    (clean_search_results_for_frontend
        (search_items_parallel (some "k") c6Oracle ["q1", "q2", "q3"]
          "us" "en")).summary.error_items.map ErrorItem.query = ["q2"] ∧
      (clean_search_results_for_frontend
        (search_items_parallel (some "k") c6Oracle ["q1", "q2", "q3"]
          "us" "en")).clothing_items.map ClothingItem.query = ["q1", "q3"] := by
  have h := C6_failed_query_isolated "k" c6Oracle "q1" "q2" "q3" "boom"
    [emptyRawProduct] [emptyRawProduct] (by decide) (by decide) (by decide)
    (by decide) (by decide) "us" "en"
  exact ⟨h.2.2.1, h.2.2.2.1⟩

/-! ## C5: redo appends exactly two turns -/

/-- A conversation context as produced by a *successful* initial
extraction whose model answer was the JSON array `["error"]`. -/
def errWordContext : ConversationContext :=
  { queries := QueryOutcome.ok ["error"]
    conversation_history :=
      [{ role := "user", parts := [MsgPart.text "[IMAGE_DATA]", MsgPart.text "prompt"] },
       { role := "model", parts := [MsgPart.text "[\x22error\x22]"] }]
    image_bytes := [1, 2, 3]
    system_prompt := "sp"
    model := "gemini-2.5-flash-preview-05-20" }

/-- A JSON-parse oracle that always succeeds. -/
def alwaysParse : String → Option (List String) := fun _ => some ["new query"]

/-- A model-call oracle returning a fixed parseable answer. -/
def fixedModelCall : List Content → String := fun _ => "[\x22new query\x22]"

/-- C5 counterexample: a ConversationState from a *successful* initial
extraction whose query list happens to contain the literal string
`"error"` makes `redo_search_queries` take its failed-extraction guard
(`"error" in queries` is *element* membership on a list) and return a
bare error dict — no new query list, no extended history — even though
the model call and JSON parse would succeed. -/
theorem C5_counterexample :
    redo_search_queries alwaysParse fixedModelCall errWordContext
        (some "please try again") =
      RedoResult.error "Cannot redo queries from a failed initial request" ∧
    (redo_search_queries alwaysParse fixedModelCall errWordContext
        (some "please try again")).okHistory? = none := by
  refine ⟨by decide, by decide⟩

/-- The two turns `redo_search_queries` appends on success: the user
feedback turn and the model turn. -/
def redo_appended_turns (model_call : List Content → String)
    (ctx : ConversationContext) (feedback_message : Option String) : List Content :=
  [{ role := "user", parts := [MsgPart.text (redo_feedback feedback_message)] },
   { role := "model",
     parts := [MsgPart.text (redo_response_text model_call ctx feedback_message)] }]

/-- C5 amended: for a ConversationState from a successful initial
extraction whose query list does not contain the literal string
`"error"`, and any feedback string, a redo whose model response parses
returns a new query list together with a history equal to the prior
history plus one user feedback turn and one model turn — length exactly
prior + 2, prior prefix unchanged (the embedding is pure, so the input
context is never mutated). -/
theorem C5_redo_appends_two (json_parse : String → Option (List String))
    (model_call : List Content → String) (ctx : ConversationContext)
    (feedback_message : Option String)
    (hok : hasErrorQueries ctx.queries = false)
    (hparse : (json_parse (redo_parse_input model_call ctx feedback_message)).isSome) :
    ∃ qs, redo_search_queries json_parse model_call ctx feedback_message =
        RedoResult.ok qs
          (ctx.conversation_history ++
            redo_appended_turns model_call ctx feedback_message)
          ctx.image_bytes ctx.system_prompt ctx.model
          (redo_feedback feedback_message) ∧
      (ctx.conversation_history ++
          redo_appended_turns model_call ctx feedback_message).length =
        ctx.conversation_history.length + 2 ∧
      (ctx.conversation_history ++
          redo_appended_turns model_call ctx feedback_message).take
          ctx.conversation_history.length =
        ctx.conversation_history := by
  obtain ⟨qs, hqs⟩ := Option.isSome_iff_exists.mp hparse
  refine ⟨qs, ?_, ?_, ?_⟩
  · unfold redo_search_queries
    rw [hok]
    simp only [Bool.false_eq_true, if_false, hqs]
    unfold redo_updated redo_appended_turns
    rw [List.append_assoc]
    rfl
  · simp [redo_appended_turns]
  · exact List.take_left ctx.conversation_history _

/-- Witness for the amended C5 at a concrete context: the ok-result
history has length `2 + 2`. -/
theorem C5_witness :
    (redo_search_queries alwaysParse fixedModelCall
        { errWordContext with queries := QueryOutcome.ok ["blue shirt"] }
        (some "more specific please")).okHistory?.map List.length = some 4 := by
  obtain ⟨qs, heq, -, -⟩ := C5_redo_appends_two alwaysParse fixedModelCall
    { errWordContext with queries := QueryOutcome.ok ["blue shirt"] }
    (some "more specific please") (by decide) (by decide)
  rw [heq]
  rfl
